import Mathlib

/-!
Verification of the `azure-storage` CLI (src/main.rs) against its
natural-language specification.

The program is shallowly embedded: configuration loading/merging and the
`azure_storage` dispatch function are translated into pure Lean functions.
Interactions with the outside world (local filesystem reads, directory
tests, the remote blob-storage API, and the md5 library call) are
parameterised by a `World` record of oracles, and the observable behaviour
of a run is the ordered trace of events it emits (remote calls issued and
local file writes performed) together with an optional error that aborted
it.  Local file writes are modelled as succeeding; write failures are not
claimed about.
-/

namespace AzureStorage

/-- The `Configs` struct deserialised from the JSON config file
(`storage_account`, `storage_master_key`, `local`). -/
structure Configs where
  storage_account : String
  storage_master_key : String
  local_path : String
deriving Repr, DecidableEq

/-- `Default::default()` for `Configs`: every field the empty string. -/
def Configs.defaultCfg : Configs :=
  { storage_account := "", storage_master_key := "", local_path := "" }

/-- Outcome of `File::open(config_path)` followed by `serde_json::from_reader`:
the file may be absent (open fails), present but malformed (parse error
message `e`), or parsed into a `Configs` value. -/
inductive ConfigFile
  | absent
  | malformed (e : String)
  | parsed (c : Configs)

/-- The config-reading step of `main`: an unopenable file yields
`Default::default()`; a parse error is propagated by `?`. -/
def loadConfig : ConfigFile → Except String Configs
  | .absent => .ok Configs.defaultCfg
  | .malformed e => .error e
  | .parsed c => .ok c

/-- The command-line options of the program that feed configuration and the
dispatch: the positional mode token and the `--container`, `--blob`,
`--local`, `--storage_account`, `--storage_master_key` values. -/
structure CliArgs where
  mode : Option String
  container : Option String
  blob : Option String
  local_path : Option String
  storage_account : Option String
  storage_master_key : Option String

/-- The "Overwrite config parameters by command line options" step of `main`:
each CLI-supplied value, if present, replaces the corresponding config
field unconditionally. -/
def mergeCli (cfg : Configs) (a : CliArgs) : Configs :=
  { storage_account := a.storage_account.getD cfg.storage_account,
    storage_master_key := a.storage_master_key.getD cfg.storage_master_key,
    local_path := a.local_path.getD cfg.local_path }

/-- The environment fallback of `main`: if the merged field value is the
empty string, read the environment variable `name`; its absence is a fatal
error `"<name> is not defined"` (the `expect` panic message). -/
def resolveEnv (name : String) (v : String) (env : String → Option String) :
    Except String String :=
  match v with
  | "" =>
    match env name with
    | some e => .ok e
    | none => .error (name ++ " is not defined")
  | _ => .ok v

/-- The resolved effective `storage_account`: config file seeded, CLI-merged,
then environment fallback. -/
def resolvedAccount (cf : ConfigFile) (a : CliArgs) (env : String → Option String) :
    Except String String :=
  match loadConfig cf with
  | .error e => .error e
  | .ok cfg0 => resolveEnv "STORAGE_ACCOUNT" (mergeCli cfg0 a).storage_account env

/-- The resolved effective `storage_master_key`: config file seeded,
CLI-merged, then environment fallback. -/
def resolvedKey (cf : ConfigFile) (a : CliArgs) (env : String → Option String) :
    Except String String :=
  match loadConfig cf with
  | .error e => .error e
  | .ok cfg0 => resolveEnv "STORAGE_MASTER_KEY" (mergeCli cfg0 a).storage_master_key env

/-- Split a character list at every `/`, keeping empty segments (the
result is never empty). -/
def splitSlash : List Char → List (List Char)
  | [] => [[]]
  | c :: rest =>
    match splitSlash rest with
    | [] => [[c]]
    | h :: t => if c = '/' then [] :: h :: t else (c :: h) :: t

/-- `Path::new(p).file_name()` of the Rust standard library: the final
normal component of the path, with separators, empty segments and `.`
components ignored; `none` when the path is empty, a root, or ends in
`..`. -/
def file_name (p : String) : Option String :=
  let comps := ((splitSlash p.toList).map fun l => String.mk l).filter
    (fun s => s != "" && s != ".")
  match comps.getLast? with
  | none => none
  | some c => if c = ".." then none else some c

/-- `PathBuf::join`: appending `child` to `base` with a `/` separator;
an absolute `child` replaces `base`. -/
def pathJoin (base child : String) : String :=
  if child.toList.head? = some '/' then child
  else if base = "" then child
  else if base.toList.getLast? = some '/' then base ++ child
  else base ++ "/" ++ child

/-- The remote API calls the program can issue, with their arguments.
`putBlockBlob` and `appendBlock` carry the uploaded byte buffer and the
hash attached via `.hash(&hash)`. -/
inductive RemoteCall
  | listBlobs (container : String)
  | listContainers
  | putAppendBlob (container blob : String)
  | putBlockBlob (container blob : String) (data hash : List Nat)
  | appendBlock (container blob : String) (data hash : List Nat)
  | getBlob (container blob : String)
  | deleteBlob (container blob : String)
deriving Repr, DecidableEq

/-- Observable events of a run, in program order: a remote call issued, or
a local file created/overwritten with the given bytes. -/
inductive Event
  | remote (c : RemoteCall)
  | fileWrite (path : String) (data : List Nat)
deriving Repr, DecidableEq

/-- The oracles a run interacts with: `isDir p` is
`Path::new(p).exists() && is_dir()`; `readFile` is `File::open` plus
`read_to_end` (`none` = I/O error); `remote` is the storage service, whose
`ok` payload is the downloaded bytes for `getBlob` (ignored otherwise);
`md5` is `md5::compute`. -/
structure World where
  isDir : String → Bool
  readFile : String → Option (List Nat)
  remote : RemoteCall → Except String (List Nat)
  md5 : List Nat → List Nat

/-- Issue one remote call with no local side effect: the event is recorded
and a remote error aborts the run (`.execute().await?`). -/
def issue (w : World) (c : RemoteCall) : List Event × Option String :=
  match w.remote c with
  | .ok _ => ([.remote c], none)
  | .error e => ([.remote c], some e)

/-- The `Some("list") | None` arm: list blobs of the given container, or
list the account's containers when none is given. -/
def list_op (w : World) (container : Option String) : List Event × Option String :=
  match container with
  | some c => issue w (.listBlobs c)
  | none => issue w .listContainers

/-- The `Some("put-append")` arm: require container then blob, then create
a new empty append blob. -/
def put_append_op (w : World) (container blob : Option String) :
    List Event × Option String :=
  match container with
  | none => ([], some "No container name specified")
  | some c =>
    match blob with
    | none => ([], some "No blob name specified")
    | some b => issue w (.putAppendBlob c b)

/-- The `Some("put" | "append")` arm: require local path and container;
default the blob name to the local file name; read the whole file; compute
the md5 hash of the buffer; then put a block blob ( is_put = true) or
append a block ( is_put = false), attaching the hash. -/
def put_or_append_op (w : World) ( is_put : Bool) (container blob loc : Option String) :
    List Event × Option String :=
  match loc with
  | none => ([], some "No local path specified")
  | some local_p =>
    match container with
    | none => ([], some "No container name specified")
    | some c =>
      let blobR : Except String String :=
        match blob with
        | some v => .ok v
        | none =>
          match file_name local_p with
          | some f => .ok f
          | none => .error "Cannot extract filename from local path"
      match blobR with
      | .error e => ([], some e)
      | .ok b =>
        match w.readFile local_p with
        | none => ([], some "failed to read local file")
        | some buffer =>
          let hash := w.md5 buffer
          if is_put then issue w (.putBlockBlob c b buffer hash)
          else issue w (.appendBlock c b buffer hash)

/-- The `Some("get")` arm: require container, blob and local path; if the
local path is an existing directory, join the blob name onto it; download
the blob; then write the downloaded bytes to the destination. -/
def get_op (w : World) (container blob loc : Option String) :
    List Event × Option String :=
  match container with
  | none => ([], some "No container name specified")
  | some c =>
    match blob with
    | none => ([], some "No blob name specified")
    | some b =>
      match loc with
      | none => ([], some "No local path specified")
      | some v =>
        let local_p := if w.isDir v then pathJoin v b else v
        match w.remote (.getBlob c b) with
        | .error e => ([.remote (.getBlob c b)], some e)
        | .ok data => ([.remote (.getBlob c b), .fileWrite local_p data], none)

/-- The `Some("delete")` arm: require container and blob, then delete. -/
def delete_op (w : World) (container blob : Option String) :
    List Event × Option String :=
  match container with
  | none => ([], some "No container name specified")
  | some c =>
    match blob with
    | none => ([], some "No blob name specified")
    | some b => issue w (.deleteBlob c b)

/-- The `azure_storage` dispatch on the mode string.  The Rust `match` arms
are disjoint string literals with a trailing wildcard, written here as a
chain of equality tests in the same order; `None` falls into the list arm
as in `Some("list") | None`. -/
def azure_storage (w : World) (mode container blob loc : Option String) :
    List Event × Option String :=
  match mode with
  | none => list_op w container
  | some m =>
    if m = "list" then list_op w container
    else if m = "put-append" then put_append_op w container blob
    else if m = "put" then put_or_append_op w true container blob loc
    else if m = "append" then put_or_append_op w false container blob loc
    else if m = "get" then get_op w container blob loc
    else if m = "delete" then delete_op w container blob
    else ([], some "Invalid mode")

/-- The whole `main`: load the config file, merge CLI options, resolve the
account and master key (in that order) with environment fallback, then
dispatch.  An empty merged `local` is passed to the dispatch as `None`. -/
def runMain (w : World) (cf : ConfigFile) (a : CliArgs) (env : String → Option String) :
    List Event × Option String :=
  match loadConfig cf with
  | .error e => ([], some e)
  | .ok cfg0 =>
    let cfg := mergeCli cfg0 a
    match resolveEnv "STORAGE_ACCOUNT" cfg.storage_account env with
    | .error e => ([], some e)
    | .ok _account =>
      match resolveEnv "STORAGE_MASTER_KEY" cfg.storage_master_key env with
      | .error e => ([], some e)
      | .ok _key =>
        let loc := if cfg.local_path ≠ "" then some cfg.local_path else none
        azure_storage w a.mode a.container a.blob loc

/-! Helper lemmas about the environment fallback. -/

theorem resolveEnv_nonempty (n v : String) (env : String → Option String) (h : v ≠ "") :
    resolveEnv n v env = .ok v := by
  unfold resolveEnv
  split
  · exact absurd rfl h
  · rfl

theorem resolveEnv_missing (n : String) (env : String → Option String) (h : env n = none) :
    resolveEnv n "" env = .error (n ++ " is not defined") := by
  simp [resolveEnv, h]

theorem resolveEnv_env (n : String) (env : String → Option String) (e : String)
    (h : env n = some e) : resolveEnv n "" env = .ok e := by
  simp [resolveEnv, h]

/-- Whatever the remote outcome, issuing a call records exactly that call
in the trace. -/
theorem issue_fst (w : World) (c : RemoteCall) : (issue w c).1 = [.remote c] := by
  unfold issue
  split <;> rfl

/-! Concrete worlds used to instantiate the theorems. -/

/-- A world where `/existing/dir` is a directory, `/tmp/data/report.csv`
holds the bytes `[82, 1, 99]`, every remote call succeeds (a `get` returns
`[7, 8, 9]`), and md5 is a stand-in digest. -/
def wTest : World :=
  { isDir := fun p => p == "/existing/dir",
    readFile := fun p => if p = "/tmp/data/report.csv" then some [82, 1, 99] else none,
    remote := fun c =>
      match c with
      | .getBlob _ _ => .ok [7, 8, 9]
      | _ => .ok [],
    md5 := fun l => [l.length % 256] }

/-- A world identical to `wTest` except every remote call fails. -/
def wFail : World := { wTest with remote := fun _ => .error "HTTP 404" }

/-- C1: the claim "if a CLI flag for the field is present its value is
used" is false when the flag carries the empty string: here the account
flag is present with value `""`, the config file says `"fileacct"`, yet the
resolved account is the environment's `"envacct"`, which is not the CLI
value `""`. -/
theorem C1_counterexample :
    (CliArgs.mk (some "list") none none none (some "") (some "key")).storage_account
      = some "" ∧
    resolvedAccount (.parsed ⟨"fileacct", "key", ""⟩)
      ⟨some "list", none, none, none, some "", some "key"⟩
      (fun n => if n = "STORAGE_ACCOUNT" then some "envacct" else some "envkey")
      = .ok "envacct" ∧
    "envacct" ≠ "" :=
  ⟨rfl, rfl, by decide⟩

/-- C1 (amended): per field, a present CLI flag replaces the config-file
value; the resolved effective value is that merged value when it is
non-empty, and otherwise the environment variable's value.  In particular
a non-empty CLI flag wins over file and environment, a non-empty file
value with no CLI flag wins over the environment, and an empty merged
value (including an empty CLI flag value) falls back to the environment. -/
theorem C1_precedence (cfg0 : Configs) (a : CliArgs) (env : String → Option String) :
    (∀ v, a.storage_account = some v → v ≠ "" →
      resolveEnv "STORAGE_ACCOUNT" (mergeCli cfg0 a).storage_account env = .ok v) ∧
    (a.storage_account = none → cfg0.storage_account ≠ "" →
      resolveEnv "STORAGE_ACCOUNT" (mergeCli cfg0 a).storage_account env
        = .ok cfg0.storage_account) ∧
    (∀ e, (mergeCli cfg0 a).storage_account = "" → env "STORAGE_ACCOUNT" = some e →
      resolveEnv "STORAGE_ACCOUNT" (mergeCli cfg0 a).storage_account env = .ok e) ∧
    (∀ v, a.storage_master_key = some v → v ≠ "" →
      resolveEnv "STORAGE_MASTER_KEY" (mergeCli cfg0 a).storage_master_key env = .ok v) ∧
    (a.storage_master_key = none → cfg0.storage_master_key ≠ "" →
      resolveEnv "STORAGE_MASTER_KEY" (mergeCli cfg0 a).storage_master_key env
        = .ok cfg0.storage_master_key) ∧
    (∀ e, (mergeCli cfg0 a).storage_master_key = "" → env "STORAGE_MASTER_KEY" = some e →
      resolveEnv "STORAGE_MASTER_KEY" (mergeCli cfg0 a).storage_master_key env = .ok e) := by
  refine ⟨fun v hv hne => ?_, fun hn hne => ?_, fun e hm he => ?_,
          fun v hv hne => ?_, fun hn hne => ?_, fun e hm he => ?_⟩
  · rw [show (mergeCli cfg0 a).storage_account = v by simp [mergeCli, hv]]
    exact resolveEnv_nonempty _ _ _ hne
  · rw [show (mergeCli cfg0 a).storage_account = cfg0.storage_account by
      simp [mergeCli, hn]]
    exact resolveEnv_nonempty _ _ _ hne
  · rw [hm]; exact resolveEnv_env _ _ _ he
  · rw [show (mergeCli cfg0 a).storage_master_key = v by simp [mergeCli, hv]]
    exact resolveEnv_nonempty _ _ _ hne
  · rw [show (mergeCli cfg0 a).storage_master_key = cfg0.storage_master_key by
      simp [mergeCli, hn]]
    exact resolveEnv_nonempty _ _ _ hne
  · rw [hm]; exact resolveEnv_env _ _ _ he

/-- C1 witness: with config file account `"fileA"` / key `"fileK"`, a CLI
account flag `"cliA"`, no CLI key flag, and both environment variables set,
the resolved account is the CLI value and the resolved key is the file
value. -/
theorem C1_witness :
    resolveEnv "STORAGE_ACCOUNT"
      (mergeCli ⟨"fileA", "fileK", ""⟩
        ⟨some "put", some "cont", none, none, some "cliA", none⟩).storage_account
      (fun _ => some "envV") = .ok "cliA" ∧
    resolveEnv "STORAGE_MASTER_KEY"
      (mergeCli ⟨"fileA", "fileK", ""⟩
        ⟨some "put", some "cont", none, none, some "cliA", none⟩).storage_master_key
      (fun _ => some "envV") = .ok "fileK" := by
  have h := C1_precedence ⟨"fileA", "fileK", ""⟩
    ⟨some "put", some "cont", none, none, some "cliA", none⟩ (fun _ => some "envV")
  exact ⟨h.1 "cliA" rfl (by decide), h.2.2.2.2.1 rfl (by decide)⟩

/-- C2: if after merging the account (resp. key) is still empty and the
corresponding environment variable is unset, the run aborts with the error
naming the missing variable and an empty event trace, so no remote call is
attempted.  (The key case assumes the account itself resolves: when both
are missing the program names `STORAGE_ACCOUNT`, which it checks first.) -/
theorem C2_fails_before_network (w : World) (cf : ConfigFile) (a : CliArgs)
    (env : String → Option String) (cfg0 : Configs) (hcf : loadConfig cf = .ok cfg0) :
    ((mergeCli cfg0 a).storage_account = "" → env "STORAGE_ACCOUNT" = none →
      runMain w cf a env = ([], some "STORAGE_ACCOUNT is not defined")) ∧
    (∀ acct, resolveEnv "STORAGE_ACCOUNT" (mergeCli cfg0 a).storage_account env
        = .ok acct →
      (mergeCli cfg0 a).storage_master_key = "" → env "STORAGE_MASTER_KEY" = none →
      runMain w cf a env = ([], some "STORAGE_MASTER_KEY is not defined")) := by
  constructor
  · intro hacct henv
    simp only [runMain, hcf, hacct, resolveEnv_missing _ _ henv]
    rfl
  · intro acct hacct hkey henv
    simp only [runMain, hcf, hacct, hkey, resolveEnv_missing _ _ henv]
    rfl

/-- C2 witness: with no config file, no CLI credential flags and an empty
environment, the run is `([], some "STORAGE_ACCOUNT is not defined")`. -/
theorem C2_witness :
    runMain wTest .absent ⟨some "list", none, none, none, none, none⟩ (fun _ => none)
      = ([], some "STORAGE_ACCOUNT is not defined") := by
  have h := C2_fails_before_network wTest .absent
    ⟨some "list", none, none, none, none, none⟩ (fun _ => none) Configs.defaultCfg rfl
  exact h.1 rfl rfl

/-- C3: in `put` and `append` with no blob name given, the issued remote
call's blob name is the base name of the local path; when no base name can
be extracted the run aborts with the extraction error and issues no remote
call. -/
theorem C3_default_blob_name (w : World) (m c p : String)
    (hm : m = "put" ∨ m = "append") :
    (∀ b data, file_name p = some b → w.readFile p = some data →
      azure_storage w (some m) (some c) none (some p) =
        issue w (if m = "put" then .putBlockBlob c b data (w.md5 data)
                 else .appendBlock c b data (w.md5 data))) ∧
    (file_name p = none →
      azure_storage w (some m) (some c) none (some p) =
        ([], some "Cannot extract filename from local path")) := by
  constructor
  · intro b data hb hread
    rcases hm with hm | hm <;> subst hm <;>
      simp [azure_storage, put_or_append_op, hb, hread]
  · intro hb
    rcases hm with hm | hm <;> subst hm <;>
      simp [azure_storage, put_or_append_op, hb]

/-- C3 witness: `put` of `/tmp/data/report.csv` with no blob flag uploads
under the blob name `report.csv`. -/
theorem C3_witness :
    azure_storage wTest (some "put") (some "mycontainer") none
        (some "/tmp/data/report.csv")
      = ([.remote (.putBlockBlob "mycontainer" "report.csv" [82, 1, 99] [3])], none) := by
  have h := (C3_default_blob_name wTest "put" "mycontainer" "/tmp/data/report.csv"
    (Or.inl rfl)).1 "report.csv" [82, 1, 99] rfl rfl
  exact h.trans rfl

/-- C4: in `get` with container, blob and local path all given and a
successful download, the written destination is the local path joined with
the blob name when the local path is an existing directory, and the local
path itself otherwise; the downloaded bytes are written there. -/
theorem C4_get_destination (w : World) (c b p : String) (data : List Nat)
    (hrem : w.remote (.getBlob c b) = .ok data) :
    azure_storage w (some "get") (some c) (some b) (some p) =
      ([.remote (.getBlob c b),
        .fileWrite (if w.isDir p then pathJoin p b else p) data], none) := by
  simp [azure_storage, get_op, hrem]

/-- C4 witness: `get` into the existing directory `/existing/dir` writes to
`/existing/dir/x.txt`; `get` into the non-directory path
`/existing/dir/renamed.txt` writes to that exact path. -/
theorem C4_witness :
    azure_storage wTest (some "get") (some "cont") (some "x.txt")
        (some "/existing/dir")
      = ([.remote (.getBlob "cont" "x.txt"),
          .fileWrite "/existing/dir/x.txt" [7, 8, 9]], none) ∧
    azure_storage wTest (some "get") (some "cont") (some "x.txt")
        (some "/existing/dir/renamed.txt")
      = ([.remote (.getBlob "cont" "x.txt"),
          .fileWrite "/existing/dir/renamed.txt" [7, 8, 9]], none) :=
  ⟨(C4_get_destination wTest "cont" "x.txt" "/existing/dir" [7, 8, 9] rfl).trans rfl,
   (C4_get_destination wTest "cont" "x.txt" "/existing/dir/renamed.txt" [7, 8, 9]
      rfl).trans rfl⟩

/-- C5: in `put` and `append`, the single remote call issued carries
exactly the byte buffer read in full from the local file and, as its hash,
the md5 digest of exactly that buffer. -/
theorem C5_checksum (w : World) (m c b p : String) (data : List Nat)
    (hm : m = "put" ∨ m = "append") (hread : w.readFile p = some data) :
    (azure_storage w (some m) (some c) (some b) (some p)).1 =
      [.remote (if m = "put" then .putBlockBlob c b data (w.md5 data)
                else .appendBlock c b data (w.md5 data))] := by
  rcases hm with hm | hm <;> subst hm <;>
    simp [azure_storage, put_or_append_op, hread, issue_fst]

/-- C5 witness: `append` of `/tmp/data/report.csv` issues one append call
whose data is the file's bytes `[82, 1, 99]` and whose hash is
`wTest.md5 [82, 1, 99] = [3]`. -/
theorem C5_witness :
    (azure_storage wTest (some "append") (some "cont") (some "blob")
        (some "/tmp/data/report.csv")).1
      = [.remote (.appendBlock "cont" "blob" [82, 1, 99] [3])] := by
  have h := C5_checksum wTest "append" "cont" "blob" "/tmp/data/report.csv"
    [82, 1, 99] (Or.inr rfl) rfl
  exact h.trans rfl

/-- C6: `put-append` with a container but no blob name (resp. with no
container) aborts with the corresponding argument error and an empty
trace, so no remote call is made; with both names present the trace is
exactly one create-append-blob remote call. -/
theorem C6_put_append_requires_names (w : World) (loc : Option String) :
    (∀ c, azure_storage w (some "put-append") (some c) none loc =
      ([], some "No blob name specified")) ∧
    (∀ b, azure_storage w (some "put-append") none b loc =
      ([], some "No container name specified")) ∧
    (∀ c b, (azure_storage w (some "put-append") (some c) (some b) loc).1 =
      [.remote (.putAppendBlob c b)]) := by
  refine ⟨fun c => ?_, fun b => ?_, fun c b => ?_⟩
  · simp [azure_storage, put_append_op]
  · simp [azure_storage, put_append_op]
  · simp [azure_storage, put_append_op, issue_fst]

/-- C7: any mode string other than the six recognized ones yields the
"Invalid mode" error with an empty trace, so no remote call is made. -/
theorem C7_invalid_mode (w : World) (m : String) (container blob loc : Option String)
    (hm : m ∉ ["list", "get", "put", "append", "put-append", "delete"]) :
    azure_storage w (some m) container blob loc = ([], some "Invalid mode") := by
  simp only [List.mem_cons, List.mem_singleton, not_or] at hm
  obtain ⟨h1, h2, h3, h4, h5, h6, -⟩ := hm
  simp [azure_storage, h1, h2, h3, h4, h5, h6]

/-- C7 witness: mode `"frobnicate"` fails with "Invalid mode" and an empty
trace. -/
theorem C7_witness :
    azure_storage wTest (some "frobnicate") (some "cont") (some "blob") none
      = ([], some "Invalid mode") :=
  C7_invalid_mode wTest "frobnicate" (some "cont") (some "blob") none (by decide)

/-- C8: an unopenable config file yields the all-empty default config and
the run proceeds exactly as with an explicitly empty parsed config; a
present but malformed config file aborts the run with the parse error and
an empty trace, before any operation. -/
theorem C8_config_file (w : World) (a : CliArgs) (env : String → Option String)
    (e : String) :
    runMain w .absent a env = runMain w (.parsed Configs.defaultCfg) a env ∧
    loadConfig .absent = .ok ⟨"", "", ""⟩ ∧
    runMain w (.malformed e) a env = ([], some e) :=
  ⟨rfl, rfl, rfl⟩

/-- C9: `list` with a container issues exactly the one list-blobs call for
that container; `list` without a container issues exactly the one
list-containers call. -/
theorem C9_list (w : World) (blob loc : Option String) :
    (∀ c, (azure_storage w (some "list") (some c) blob loc).1 =
      [.remote (.listBlobs c)]) ∧
    (azure_storage w (some "list") none blob loc).1 = [.remote .listContainers] := by
  constructor
  · intro c
    simp [azure_storage, list_op, issue_fst]
  · simp [azure_storage, list_op, issue_fst]

/-- C10: in `get`, when the download fails the run aborts with that error
after the single remote call, and the trace contains no file write: the
local filesystem is untouched. -/
theorem C10_no_write_on_remote_error (w : World) (c b p e : String)
    (hrem : w.remote (.getBlob c b) = .error e) :
    azure_storage w (some "get") (some c) (some b) (some p) =
      ([.remote (.getBlob c b)], some e) ∧
    ∀ q d, Event.fileWrite q d ∉
      (azure_storage w (some "get") (some c) (some b) (some p)).1 := by
  have h : azure_storage w (some "get") (some c) (some b) (some p) =
      ([.remote (.getBlob c b)], some e) := by
    simp [azure_storage, get_op, hrem]
  refine ⟨h, fun q d => ?_⟩
  rw [h]
  simp

/-- C10 witness: with the remote failing (`HTTP 404`), `get` leaves only
the remote call in the trace and writes no file. -/
theorem C10_witness :
    azure_storage wFail (some "get") (some "cont") (some "x.txt")
        (some "/existing/dir")
      = ([.remote (.getBlob "cont" "x.txt")], some "HTTP 404") :=
  (C10_no_write_on_remote_error wFail "cont" "x.txt" "/existing/dir" "HTTP 404" rfl).1

end AzureStorage
